import Mathlib

/-
Verification of the truthy refresh-token session core and the
change-password DTO validation.

The repository sources available are `src/auth/dto/change-password.dto.ts`
(embedded below for the DTO claim) and the unit test file
`src/refresh-token/refresh-token.service.spec.ts`.  The implementation of
`RefreshTokenService` itself is not among the sources, only its tests;
the service, the store and the codec are therefore modelled from the
specification (sections 3, 4 and 7), keeping the names used by the test
file (resolveRefreshToken, decodeRefreshToken, revokeRefreshTokenById,
RefreshToken, jti and sub claims, and so on).
-/

namespace Truthy

/-- A principal: the minimal authenticated user view (UserSerializer in the
tests).  Fields: unique identifier and email. -/
structure UserSerializer where
  id : Nat
  email : String
deriving Repr, DecidableEq

/-- Request metadata captured when a refresh credential is issued
(the tokenPayload of the tests: origin address and client agent string). -/
structure TokenPayloadMeta where
  ip : String
  userAgent : String
deriving Repr, DecidableEq

/-- A persisted session record (RefreshToken entity of the tests): unique
identifier assigned by the store, owning user identifier, revoked flag and
the request metadata. -/
structure RefreshToken where
  id : Nat
  userId : Nat
  isRevoked : Bool
  ip : String
  userAgent : String
deriving Repr, DecidableEq

/-- The decoded payload of a refresh credential: a session-id claim (jti)
and a subject claim (sub).  The spec treats decoded claims as loosely
typed, so each claim may be missing or null; we model a present claim as
some and a missing or null one as none. -/
structure RefreshTokenPayload where
  jti : Option Nat
  sub : Option Nat
deriving Repr, DecidableEq

/-- Modelled from the spec: the error taxonomy of section 7.
MalformedCredential is client-visible as BadRequestException,
SessionNotFound as NotFoundException, NotOwner as ForbiddenException,
DependencyFailure as a generic server error. -/
inductive AuthError where
  | malformedCredential
  | sessionNotFound
  | notOwner
  | dependencyFailure
deriving Repr, DecidableEq

/-- Modelled from the spec: a presented refresh credential, identified by
what the underlying verifier (TokenCodec.decodeRefresh, jwtService
verifyAsync in the tests) does with it: verification succeeds and yields
the signed claims, or raises the expiry-specific signal
(TokenExpiredError), or fails for any other reason (bad signature,
malformed structure). -/
inductive VerifyResult where
  | ok (payload : RefreshTokenPayload)
  | expired
  | invalid
deriving Repr, DecidableEq

/-- The refresh-token store state: the persisted records plus the next
identifier the store will assign. -/
structure Store where
  tokens : List RefreshToken
  nextId : Nat
deriving Repr, DecidableEq

/-- Store well-formedness: at most one record per identifier, and every
persisted identifier is below the allocation counter. -/
def Store.wf (s : Store) : Prop :=
  (s.tokens.map (·.id)).Nodup ∧ ∀ r ∈ s.tokens, r.id < s.nextId

instance (s : Store) : Decidable s.wf := by
  unfold Store.wf; infer_instance

/-- Modelled from the spec: RefreshTokenStore.create — allocates a new
record with revoked = false for the given subject and metadata, persists
it and returns it with its assigned identifier. -/
def createRefreshToken (s : Store) (user : UserSerializer)
    (meta : TokenPayloadMeta) : RefreshToken × Store :=
  let record : RefreshToken :=
    { id := s.nextId, userId := user.id, isRevoked := false
      ip := meta.ip, userAgent := meta.userAgent }
  (record, { tokens := s.tokens ++ [record], nextId := s.nextId + 1 })

/-- Modelled from the spec: RefreshTokenStore.findById — lookup of a
record by identifier; absent gives none. -/
def findTokenById (s : Store) (tokenId : Nat) : Option RefreshToken :=
  s.tokens.find? (fun t => t.id == tokenId)

/-- Marking a record revoked: the one-way flag flip performed by
RefreshTokenStore.revoke before persisting. -/
def revoke (r : RefreshToken) : RefreshToken :=
  { r with isRevoked := true }

/-- Persisting a mutated record (record.save in the tests): the stored
record with the same identifier is replaced. -/
def saveToken (s : Store) (updated : RefreshToken) : Store :=
  { s with tokens := s.tokens.map (fun t => if t.id == updated.id then updated else t) }

/-- An access credential: subject identifier and minimal profile claims,
as produced by TokenCodec.signAccess; never persisted. -/
structure AccessToken where
  sub : Nat
  email : String
deriving Repr, DecidableEq

/-- Modelled from the spec: generateAccessToken — signs an access
credential with the deterministic claim set of the principal.  No side
effects. -/
def generateAccessToken (user : UserSerializer) : AccessToken :=
  { sub := user.id, email := user.email }

/-- Modelled from the spec: TokenCodec.signRefresh — signs a refresh
credential binding the session identifier and the subject identifier.
Within its validity window the signed credential verifies successfully to
exactly these claims, so it is modelled as the successful verification
outcome. -/
def signRefresh (sessionId subjectId : Nat) : VerifyResult :=
  .ok { jti := some sessionId, sub := some subjectId }

/-- Modelled from the spec: generateRefreshToken — stores a new
RefreshRecord for the principal with the request metadata, then signs a
refresh credential binding the new record id and the principal id.
Returns the credential and the updated store. -/
def generateRefreshToken (s : Store) (user : UserSerializer)
    (meta : TokenPayloadMeta) : VerifyResult × Store :=
  let (record, s2) := createRefreshToken s user meta
  (signRefresh record.id user.id, s2)

/-- Modelled from the spec: decodeRefreshToken — verifies signature and
expiry.  The expiry-specific signal of the verifier and any other
verification failure are both mapped to the client-facing
MalformedCredential error (BadRequestException in the tests), never to a
generic server error. -/
def decodeRefreshToken (tok : VerifyResult) :
    Except AuthError RefreshTokenPayload :=
  match tok with
  | .ok payload => .ok payload
  | .expired => .error .malformedCredential
  | .invalid => .error .malformedCredential

/-- Modelled from the spec: getStoredTokenFromRefreshTokenPayload — fails
with MalformedCredential when the session-id claim is missing or null,
otherwise consults the store; an absent record is returned as none. -/
def getStoredTokenFromRefreshTokenPayload (s : Store)
    (payload : RefreshTokenPayload) : Except AuthError (Option RefreshToken) :=
  match payload.jti with
  | none => .error .malformedCredential
  | some tokenId => .ok (findTokenById s tokenId)

/-- Modelled from the spec: UserDirectory lookup (authService.findById in
the tests) over a directory modelled as a list of principals. -/
def authFindById (users : List UserSerializer) (userId : Nat) :
    Option UserSerializer :=
  users.find? (fun u => u.id == userId)

/-- Modelled from the spec: getUserFromRefreshTokenPayload — fails with
MalformedCredential when the subject claim is missing or null, otherwise
consults the user directory; an absent user is returned as none. -/
def getUserFromRefreshTokenPayload (users : List UserSerializer)
    (payload : RefreshTokenPayload) : Except AuthError (Option UserSerializer) :=
  match payload.sub with
  | none => .error .malformedCredential
  | some subjectId => .ok (authFindById users subjectId)

/-- Modelled from the spec, section 4.4 resolve: decode the credential,
check both claims are present and non-null, look the session record up,
cross-check ownership, check revocation, resolve the subject; every
failure after decode is the uniform MalformedCredential. -/
def resolveRefreshToken (s : Store) (users : List UserSerializer)
    (tok : VerifyResult) : Except AuthError (UserSerializer × RefreshToken) := do
  let payload ← decodeRefreshToken tok
  if payload.jti.isNone || payload.sub.isNone then
    .error .malformedCredential
  else do
    let stored ← getStoredTokenFromRefreshTokenPayload s payload
    match stored with
    | none => .error .malformedCredential
    | some record =>
      if payload.sub ≠ some record.userId then
        .error .malformedCredential
      else if record.isRevoked then
        .error .malformedCredential
      else do
        let found ← getUserFromRefreshTokenPayload users payload
        match found with
        | none => .error .malformedCredential
        | some user => .ok (user, record)

/-- Modelled from the spec: createAccessTokenFromRefreshToken — resolve
the presented refresh credential, then sign a new access credential for
the resolved principal.  The store is returned untouched: the resolve
path performs no write. -/
def createAccessTokenFromRefreshToken (s : Store)
    (users : List UserSerializer) (tok : VerifyResult) :
    Except AuthError AccessToken × Store :=
  match resolveRefreshToken s users tok with
  | .error e => (.error e, s)
  | .ok (user, _) => (.ok (generateAccessToken user), s)

/-- Modelled from the spec: getRefreshTokenByUserId — the records of the
given user whose revoked flag is false. -/
def getRefreshTokenByUserId (s : Store) (userId : Nat) : List RefreshToken :=
  s.tokens.filter (fun t => t.userId == userId && !t.isRevoked)

/-- Modelled from the spec, section 4.4 revokeById: look the record up
(absent gives SessionNotFound), check the requesting subject owns it
(mismatch gives NotOwner), then mark it revoked and persist.  Returns the
outcome together with the resulting store. -/
def revokeRefreshTokenById (s : Store) (tokenId userId : Nat) :
    Except AuthError RefreshToken × Store :=
  match findTokenById s tokenId with
  | none => (.error .sessionNotFound, s)
  | some record =>
    if record.userId ≠ userId then
      (.error .notOwner, s)
    else
      let updated := revoke record
      (.ok updated, saveToken s updated)

/-- The public operations of the service, for stating store-wide
invariants uniformly. -/
inductive Op where
  | generateAccess (user : UserSerializer)
  | generateRefresh (user : UserSerializer) (meta : TokenPayloadMeta)
  | resolveTok (users : List UserSerializer) (tok : VerifyResult)
  | mintAccess (users : List UserSerializer) (tok : VerifyResult)
  | listByUser (userId : Nat)
  | revokeById (tokenId userId : Nat)
deriving Repr, DecidableEq

/-- The store after running one service operation.  Credential generation
and minting sign without touching existing records; resolution and
listing are read-only; revocation is the only record mutation. -/
def applyOp (s : Store) : Op → Store
  | .generateAccess _ => s
  | .generateRefresh user meta => (generateRefreshToken s user meta).2
  | .resolveTok _ _ => s
  | .mintAccess users tok => (createAccessTokenFromRefreshToken s users tok).2
  | .listByUser _ => s
  | .revokeById tokenId userId => (revokeRefreshTokenById s tokenId userId).2

/-! Change-password DTO (src/auth/dto/change-password.dto.ts).  The DTO
carries three string fields validated by class-validator decorators:
oldPassword is IsNotEmpty; password is IsNotEmpty, MinLength 6,
MaxLength 20 and must match the pattern
(?=.*d)(?=.*[a-z])(?=.*[A-Z])(?=.*[^a-zA-Z0-9])(?!.*s).\x7b6,20\x7d
anchored at both ends; confirmPassword is IsNotEmpty and IsEqualTo the
password field. -/

/-- The change-password data transfer object. -/
structure ChangePasswordDto where
  oldPassword : String
  password : String
  confirmPassword : String
deriving Repr, DecidableEq

/-- The regex class [a-z]. -/
def isAsciiLower (c : Char) : Bool :=
  'a' ≤ c && c ≤ 'z'

/-- The regex class [A-Z]. -/
def isAsciiUpper (c : Char) : Bool :=
  'A' ≤ c && c ≤ 'Z'

/-- The regex class for the digit escape: [0-9]. -/
def isAsciiDigit (c : Char) : Bool :=
  '0' ≤ c && c ≤ '9'

/-- The regex class [a-zA-Z0-9]. -/
def isAlphanumeric (c : Char) : Bool :=
  isAsciiLower c || isAsciiUpper c || isAsciiDigit c

/-- The characters matched by the whitespace escape of an ECMAScript
regular expression: tab, line feed, vertical tab, form feed, carriage
return, space, no-break space, the Unicode space separators, the line and
paragraph separators and the byte-order mark. -/
def isJsWhitespace (c : Char) : Bool :=
  c = '\t' || c = '\n' || c = '\u000B' || c = '\u000C' || c = '\r' ||
  c = ' ' || c = '\u00A0' || c = '\u1680' ||
  ('\u2000' ≤ c && c ≤ '\u200A') ||
  c = '\u2028' || c = '\u2029' || c = '\u202F' || c = '\u205F' ||
  c = '\u3000' || c = '\uFEFF'

/-- The ECMAScript line terminators, which the dot of a regular
expression without the dotAll flag does not match. -/
def isLineTerminator (c : Char) : Bool :=
  c = '\n' || c = '\r' || c = '\u2028' || c = '\u2029'

/-- Matching of the lookahead body dot-star followed by a class: there is
a character of the class reachable by skipping zero or more characters
none of which is a line terminator. -/
def existsBeforeLineTerminator (p : Char → Bool) : List Char → Bool
  | [] => false
  | c :: rest => p c || (!isLineTerminator c && existsBeforeLineTerminator p rest)

/-- The password pattern of the DTO, transcribed from the anchored
ECMAScript regular expression: four positive lookaheads (a digit, a char
of [a-z], a char of [A-Z], a char outside [a-zA-Z0-9], each reachable
without crossing a line terminator), one negative lookahead (no
whitespace character reachable without crossing a line terminator), and a
body of 6 to 20 characters each matched by the dot, hence none a line
terminator, spanning the whole string. -/
def matchesPasswordPattern (s : String) : Bool :=
  let cs := s.toList
  existsBeforeLineTerminator isAsciiDigit cs &&
  existsBeforeLineTerminator isAsciiLower cs &&
  existsBeforeLineTerminator isAsciiUpper cs &&
  existsBeforeLineTerminator (fun c => !isAlphanumeric c) cs &&
  !existsBeforeLineTerminator isJsWhitespace cs &&
  (6 ≤ cs.length && cs.length ≤ 20 && cs.all (fun c => !isLineTerminator c))

/-- The class-validator IsNotEmpty check on a string value. -/
def isNotEmpty (s : String) : Bool :=
  !s.isEmpty

/-- The class-validator MinLength check. -/
def minLength (n : Nat) (s : String) : Bool :=
  n ≤ s.length

/-- The class-validator MaxLength check. -/
def maxLength (n : Nat) (s : String) : Bool :=
  s.length ≤ n

/-- Modelled from the spec: the IsEqualTo decorator
(common/decorators/is-equal-to.decorator.ts is not among the sources); as
its name and its use on confirmPassword state, it checks equality with
the referenced property, here the password field. -/
def isEqualToPassword (dto : ChangePasswordDto) (s : String) : Bool :=
  s == dto.password

/-- Validation of a ChangePasswordDto: the conjunction of every decorator
check declared on its fields. -/
def validateChangePassword (dto : ChangePasswordDto) : Bool :=
  isNotEmpty dto.oldPassword &&
  (isNotEmpty dto.password && minLength 6 dto.password &&
    maxLength 20 dto.password && matchesPasswordPattern dto.password) &&
  (isNotEmpty dto.confirmPassword && isEqualToPassword dto dto.confirmPassword)

/-- The condition of the claim, in its own words: oldPassword non-empty,
password 6 to 20 characters with at least one lowercase letter, one
uppercase letter, one digit and one non-alphanumeric character and no
whitespace, confirmPassword non-empty and equal to password. -/
def changePasswordClaimCheck (dto : ChangePasswordDto) : Bool :=
  let cs := dto.password.toList
  dto.oldPassword != "" &&
  (6 ≤ cs.length && cs.length ≤ 20) &&
  cs.any isAsciiLower && cs.any isAsciiUpper && cs.any isAsciiDigit &&
  cs.any (fun c => !isAlphanumeric c) &&
  !cs.any isJsWhitespace &&
  dto.confirmPassword != "" && dto.confirmPassword == dto.password

/-! Helper lemmas. -/

lemma revoke_revoke (r : RefreshToken) : revoke (revoke r) = revoke r := rfl

lemma revoke_of_revoked {r : RefreshToken} (h : r.isRevoked = true) :
    revoke r = r := by
  cases r
  simp_all [revoke]

lemma mint_store_eq (s : Store) (users : List UserSerializer)
    (tok : VerifyResult) : (createAccessTokenFromRefreshToken s users tok).2 = s := by
  unfold createAccessTokenFromRefreshToken
  split <;> rfl

lemma resolve_ok_payload (s : Store) (users : List UserSerializer)
    (jti sub : Nat) :
    resolveRefreshToken s users (.ok ⟨some jti, some sub⟩) =
      match findTokenById s jti with
      | none => .error .malformedCredential
      | some record =>
        if (some sub : Option Nat) ≠ some record.userId then
          .error .malformedCredential
        else if record.isRevoked then
          .error .malformedCredential
        else
          match authFindById users sub with
          | none => .error .malformedCredential
          | some user => .ok (user, record) := rfl

lemma find?_id_map_update (l : List RefreshToken) (tokenId : Nat)
    (u : RefreshToken) (hu : u.id = tokenId)
    (hsome : (l.find? (fun t => t.id == tokenId)).isSome = true) :
    (l.map (fun t => if t.id == u.id then u else t)).find?
      (fun t => t.id == tokenId) = some u := by
  induction l with
  | nil => simp at hsome
  | cons c rest ih =>
    by_cases hp : (c.id == tokenId) = true
    · have hcu : (c.id == u.id) = true := by
        simp only [beq_iff_eq] at hp ⊢
        omega
      simp only [List.map_cons, if_pos hcu]
      exact List.find?_cons_of_pos _ (by simp [hu])
    · have hcu : ¬(c.id == u.id) = true := by
        simp only [beq_iff_eq] at hp ⊢
        omega
      simp only [List.map_cons, if_neg hcu]
      rw [List.find?_cons_of_neg
        (p := fun t : RefreshToken => t.id == tokenId) _ hp]
      apply ih
      rwa [List.find?_cons_of_neg
        (p := fun t : RefreshToken => t.id == tokenId) _ hp] at hsome

/-! Claim theorems. -/

/-- C1: every post-decode failure of resolve — unknown session record,
ownership mismatch, revoked record, or absent user — surfaces as the same
uniform MalformedCredential error. -/
theorem resolve_post_decode_failure_uniform
    (s : Store) (users : List UserSerializer) (jti sub : Nat)
    (h : findTokenById s jti = none
      ∨ (∃ r, findTokenById s jti = some r ∧ r.userId ≠ sub)
      ∨ (∃ r, findTokenById s jti = some r ∧ r.isRevoked = true)
      ∨ authFindById users sub = none) :
    resolveRefreshToken s users (.ok ⟨some jti, some sub⟩) =
      .error .malformedCredential := by
  rw [resolve_ok_payload]
  rcases h with hfind | ⟨r, hfind, hne⟩ | ⟨r, hfind, hrev⟩ | huser
  · simp [hfind]
  · simp [hfind, Ne.symm hne]
  · rw [hfind]
    by_cases hsub : sub = r.userId <;> simp [hsub, hrev]
  · cases hfind : findTokenById s jti with
    | none => simp
    | some r =>
      by_cases hsub : sub = r.userId
      · subst hsub
        cases hrev : r.isRevoked <;> simp [hrev, huser]
      · simp [hsub]

/-- C1 witness: a revoked record resolves to MalformedCredential. -/
theorem resolve_post_decode_failure_uniform_case :
    resolveRefreshToken ⟨[⟨1, 1, true, "", ""⟩], 2⟩ [⟨1, "a@x.com"⟩]
      (.ok ⟨some 1, some 1⟩) = .error .malformedCredential :=
  resolve_post_decode_failure_uniform _ _ 1 1
    (Or.inr (Or.inr (Or.inl ⟨⟨1, 1, true, "", ""⟩, rfl, rfl⟩)))

/-- C2: a credential on which the verifier raises the expiry signal fails
with the client-facing MalformedCredential, both at decodeRefreshToken
and through resolveRefreshToken, for every store and directory state. -/
theorem resolve_expired_credential_malformed :
    ∀ (s : Store) (users : List UserSerializer),
      resolveRefreshToken s users .expired = .error .malformedCredential ∧
      decodeRefreshToken .expired = .error .malformedCredential :=
  fun _ _ => ⟨rfl, rfl⟩

/-- C3: issuing a credential pair and resolving the returned refresh
credential yields the principal together with the freshly stored record,
owned by the principal and not revoked. -/
theorem issue_pair_then_resolve
    (s : Store) (users : List UserSerializer) (P : UserSerializer)
    (M : TokenPayloadMeta) (hwf : s.wf)
    (hdir : authFindById users P.id = some P) :
    resolveRefreshToken (generateRefreshToken s P M).2 users
        (generateRefreshToken s P M).1
      = .ok (P, (createRefreshToken s P M).1)
    ∧ (createRefreshToken s P M).1.userId = P.id
    ∧ (createRefreshToken s P M).1.isRevoked = false
    ∧ (createRefreshToken s P M).1 ∈ (generateRefreshToken s P M).2.tokens := by
  have hfind : findTokenById (generateRefreshToken s P M).2 s.nextId
      = some (createRefreshToken s P M).1 := by
    show (s.tokens ++ [(createRefreshToken s P M).1]).find?
      (fun t => t.id == s.nextId) = _
    rw [List.find?_append]
    have hnone : s.tokens.find? (fun t => t.id == s.nextId) = none := by
      rw [List.find?_eq_none]
      intro x hx
      simp only [beq_iff_eq]
      exact Nat.ne_of_lt (hwf.2 x hx)
    rw [hnone]
    simp [createRefreshToken]
  refine ⟨?_, rfl, rfl, ?_⟩
  · show resolveRefreshToken _ users (.ok ⟨some s.nextId, some P.id⟩) = _
    rw [resolve_ok_payload, hfind]
    simp [createRefreshToken, hdir]
  · show _ ∈ s.tokens ++ [(createRefreshToken s P M).1]
    exact List.mem_append_right _ (List.mem_singleton.mpr rfl)

/-- C3 witness: the round trip at a concrete principal, metadata and
empty store. -/
theorem issue_pair_then_resolve_case :
    resolveRefreshToken
        (generateRefreshToken ⟨[], 0⟩ ⟨1, "a@x.com"⟩ ⟨"::1", "mozilla"⟩).2
        [⟨1, "a@x.com"⟩]
        (generateRefreshToken ⟨[], 0⟩ ⟨1, "a@x.com"⟩ ⟨"::1", "mozilla"⟩).1
      = .ok (⟨1, "a@x.com"⟩,
          (createRefreshToken ⟨[], 0⟩ ⟨1, "a@x.com"⟩ ⟨"::1", "mozilla"⟩).1) :=
  (issue_pair_then_resolve ⟨[], 0⟩ [⟨1, "a@x.com"⟩] ⟨1, "a@x.com"⟩
    ⟨"::1", "mozilla"⟩ (by decide) rfl).1

/-- C4: on a well-formed store, every service operation keeps every
stored record (same identifier, same owner) and either leaves it
untouched or performs only the one-way revoked transition from false to
true; in particular a revoked record never goes back to unrevoked and no
record is deleted. -/
theorem service_ops_preserve_records (s : Store) (op : Op) (hwf : s.wf) :
    ∀ r ∈ s.tokens, ∃ r2 ∈ (applyOp s op).tokens,
      r2.id = r.id ∧ r2.userId = r.userId ∧
      (r.isRevoked = true → r2.isRevoked = true) ∧
      (r2 = r ∨ (r.isRevoked = false ∧ r2 = revoke r)) := by
  intro r hr
  cases op with
  | generateAccess user => exact ⟨r, hr, rfl, rfl, fun h => h, Or.inl rfl⟩
  | resolveTok users tok => exact ⟨r, hr, rfl, rfl, fun h => h, Or.inl rfl⟩
  | listByUser uid => exact ⟨r, hr, rfl, rfl, fun h => h, Or.inl rfl⟩
  | mintAccess users tok =>
    refine ⟨r, ?_, rfl, rfl, fun h => h, Or.inl rfl⟩
    show r ∈ (createAccessTokenFromRefreshToken s users tok).2.tokens
    rw [mint_store_eq]
    exact hr
  | generateRefresh user meta =>
    refine ⟨r, ?_, rfl, rfl, fun h => h, Or.inl rfl⟩
    show r ∈ s.tokens ++ [(createRefreshToken s user meta).1]
    exact List.mem_append_left _ hr
  | revokeById tokenId userId =>
    show ∃ r2 ∈ (revokeRefreshTokenById s tokenId userId).2.tokens, _
    unfold revokeRefreshTokenById
    cases hfind : findTokenById s tokenId with
    | none => exact ⟨r, hr, rfl, rfl, fun h => h, Or.inl rfl⟩
    | some record =>
      by_cases hown : record.userId ≠ userId
      · simp only [if_pos hown]
        exact ⟨r, hr, rfl, rfl, fun h => h, Or.inl rfl⟩
      · simp only [if_neg hown]
        show ∃ r2 ∈ (saveToken s (revoke record)).tokens, _
        unfold saveToken
        by_cases hid : (r.id == (revoke record).id) = true
        · have hrecmem : record ∈ s.tokens := List.mem_of_find?_eq_some hfind
          have hreq : r = record := by
            refine List.inj_on_of_nodup_map hwf.1 hr hrecmem ?_
            simpa [revoke] using hid
          subst hreq
          refine ⟨revoke r, ?_, rfl, rfl, fun _ => rfl, ?_⟩
          · have := List.mem_map_of_mem
              (fun t => if t.id == (revoke r).id then revoke r else t) hr
            simpa [hid] using this
          · cases hrev : r.isRevoked with
            | true => exact Or.inl (revoke_of_revoked hrev)
            | false => exact Or.inr ⟨rfl, rfl⟩
        · refine ⟨r, ?_, rfl, rfl, fun h => h, Or.inl rfl⟩
          have := List.mem_map_of_mem
            (fun t => if t.id == (revoke record).id then revoke record else t) hr
          simpa [hid] using this

/-- C4 witness: the preservation statement for a concrete record under a
concrete revocation on a concrete well-formed store. -/
theorem service_ops_preserve_records_case :
    ∃ r2 ∈ (applyOp ⟨[⟨1, 1, false, "::1", "mozilla"⟩], 2⟩
        (Op.revokeById 1 1)).tokens,
      r2.id = (⟨1, 1, false, "::1", "mozilla"⟩ : RefreshToken).id ∧
      r2.userId = (⟨1, 1, false, "::1", "mozilla"⟩ : RefreshToken).userId ∧
      ((⟨1, 1, false, "::1", "mozilla"⟩ : RefreshToken).isRevoked = true →
        r2.isRevoked = true) ∧
      (r2 = ⟨1, 1, false, "::1", "mozilla"⟩ ∨
        ((⟨1, 1, false, "::1", "mozilla"⟩ : RefreshToken).isRevoked = false ∧
          r2 = revoke ⟨1, 1, false, "::1", "mozilla"⟩)) :=
  service_ops_preserve_records ⟨[⟨1, 1, false, "::1", "mozilla"⟩], 2⟩
    (Op.revokeById 1 1) (by decide) ⟨1, 1, false, "::1", "mozilla"⟩
    (List.mem_singleton.mpr rfl)

/-- C5: a decoded payload missing the session-id claim or the subject
claim makes resolve fail with MalformedCredential identically for every
store and every user directory — neither collaborator influences the
outcome. -/
theorem resolve_missing_claim_no_lookup (payload : RefreshTokenPayload)
    (h : payload.jti = none ∨ payload.sub = none) :
    ∀ (s : Store) (users : List UserSerializer),
      resolveRefreshToken s users (.ok payload) =
        .error .malformedCredential := by
  intro s users
  obtain ⟨jti, sub⟩ := payload
  rcases h with h | h <;> simp only at h <;> subst h <;>
    simp [resolveRefreshToken, decodeRefreshToken, Bind.bind, Except.bind]

/-- C5 witness: a payload with a null session-id claim fails on a
concrete store and directory. -/
theorem resolve_missing_claim_no_lookup_case :
    resolveRefreshToken ⟨[⟨1, 1, false, "", ""⟩], 2⟩ [⟨1, "a@x.com"⟩]
      (.ok ⟨none, some 1⟩) = .error .malformedCredential :=
  resolve_missing_claim_no_lookup ⟨none, some 1⟩ (Or.inl rfl)
    ⟨[⟨1, 1, false, "", ""⟩], 2⟩ [⟨1, "a@x.com"⟩]

/-- C6: minting an access credential from a refresh credential is exactly
resolve followed by signing an access credential for the resolved
principal, leaves the store unchanged, and therefore the same refresh
credential resolves again afterwards and mints again. -/
theorem mint_access_frame (s : Store) (users : List UserSerializer)
    (tok : VerifyResult) :
    (createAccessTokenFromRefreshToken s users tok).2 = s ∧
    (createAccessTokenFromRefreshToken s users tok).1 =
      (resolveRefreshToken s users tok).map (fun p => generateAccessToken p.1) ∧
    ∀ u r, resolveRefreshToken s users tok = .ok (u, r) →
      resolveRefreshToken (createAccessTokenFromRefreshToken s users tok).2
          users tok = .ok (u, r) ∧
      (createAccessTokenFromRefreshToken
          (createAccessTokenFromRefreshToken s users tok).2 users tok).1
        = .ok (generateAccessToken u) := by
  refine ⟨mint_store_eq s users tok, ?_, ?_⟩
  · cases h : resolveRefreshToken s users tok with
    | error e => simp [createAccessTokenFromRefreshToken, Except.map, h]
    | ok p =>
      obtain ⟨u, r⟩ := p
      simp [createAccessTokenFromRefreshToken, Except.map, h]
  · intro u r h
    rw [mint_store_eq]
    exact ⟨h, by simp [createAccessTokenFromRefreshToken, h]⟩

/-- C6 witness: minting from a concrete valid refresh credential leaves
the store unchanged and the credential resolves again. -/
theorem mint_access_frame_case :
    (createAccessTokenFromRefreshToken ⟨[⟨1, 1, false, "", ""⟩], 2⟩
        [⟨1, "a@x.com"⟩] (signRefresh 1 1)).2 = ⟨[⟨1, 1, false, "", ""⟩], 2⟩ ∧
    resolveRefreshToken
        (createAccessTokenFromRefreshToken ⟨[⟨1, 1, false, "", ""⟩], 2⟩
          [⟨1, "a@x.com"⟩] (signRefresh 1 1)).2
        [⟨1, "a@x.com"⟩] (signRefresh 1 1)
      = .ok (⟨1, "a@x.com"⟩, ⟨1, 1, false, "", ""⟩) :=
  ⟨(mint_access_frame _ _ _).1,
    ((mint_access_frame ⟨[⟨1, 1, false, "", ""⟩], 2⟩ [⟨1, "a@x.com"⟩]
        (signRefresh 1 1)).2.2 ⟨1, "a@x.com"⟩ ⟨1, 1, false, "", ""⟩
      rfl).1⟩

/-- C7: revoking a session owned by a different subject fails with
NotOwner and returns the store untouched, so the revoked flag of the
record is unchanged. -/
theorem revoke_by_id_not_owner (s : Store) (tokenId userId : Nat)
    (r : RefreshToken) (hfind : findTokenById s tokenId = some r)
    (hown : r.userId ≠ userId) :
    revokeRefreshTokenById s tokenId userId = (.error .notOwner, s) := by
  simp [revokeRefreshTokenById, hfind, hown]

/-- C7 witness: the not-owner rejection at a concrete store. -/
theorem revoke_by_id_not_owner_case :
    revokeRefreshTokenById ⟨[⟨1, 2, false, "", ""⟩], 2⟩ 1 1
      = (.error .notOwner, ⟨[⟨1, 2, false, "", ""⟩], 2⟩) :=
  revoke_by_id_not_owner _ 1 1 ⟨1, 2, false, "", ""⟩ rfl (by decide)

/-- C8: revoking an owned session succeeds and is idempotent: the second
identical call succeeds as well, and after each call the stored record
and the returned record carry revoked = true. -/
theorem revoke_by_id_idempotent (s : Store) (tokenId owner : Nat)
    (r : RefreshToken) (hfind : findTokenById s tokenId = some r)
    (hown : r.userId = owner) :
    (revokeRefreshTokenById s tokenId owner).1 = .ok (revoke r) ∧
    findTokenById (revokeRefreshTokenById s tokenId owner).2 tokenId
      = some (revoke r) ∧
    (revokeRefreshTokenById (revokeRefreshTokenById s tokenId owner).2
        tokenId owner).1 = .ok (revoke r) ∧
    findTokenById (revokeRefreshTokenById
        (revokeRefreshTokenById s tokenId owner).2 tokenId owner).2 tokenId
      = some (revoke r) ∧
    (revoke r).isRevoked = true := by
  have hrid : r.id = tokenId := by simpa using List.find?_some hfind
  have h1 : revokeRefreshTokenById s tokenId owner
      = (.ok (revoke r), saveToken s (revoke r)) := by
    simp [revokeRefreshTokenById, hfind, hown]
  have hfind1 : findTokenById (saveToken s (revoke r)) tokenId
      = some (revoke r) := by
    show (s.tokens.map _).find? _ = _
    apply find?_id_map_update _ _ _ (show (revoke r).id = tokenId from hrid)
    unfold findTokenById at hfind
    simp [hfind]
  have h2 : revokeRefreshTokenById (saveToken s (revoke r)) tokenId owner
      = (.ok (revoke r), saveToken (saveToken s (revoke r)) (revoke r)) := by
    have hcond : ¬((revoke r).userId ≠ owner) := by simp [revoke, hown]
    unfold revokeRefreshTokenById
    rw [hfind1]
    simp only [if_neg hcond, revoke_revoke]
  have hfind2 : findTokenById (saveToken (saveToken s (revoke r)) (revoke r))
      tokenId = some (revoke r) := by
    show ((saveToken s (revoke r)).tokens.map _).find? _ = _
    apply find?_id_map_update _ _ _ (show (revoke r).id = tokenId from hrid)
    unfold findTokenById at hfind1
    simp [hfind1]
  refine ⟨by rw [h1], by rw [h1]; exact hfind1, ?_, ?_, rfl⟩
  · rw [h1]
    show (revokeRefreshTokenById (saveToken s (revoke r)) tokenId owner).1 = _
    rw [h2]
  · rw [h1]
    show findTokenById (revokeRefreshTokenById (saveToken s (revoke r))
      tokenId owner).2 tokenId = _
    rw [h2]
    exact hfind2

/-- C8 witness: double revocation by the owner at a concrete store. -/
theorem revoke_by_id_idempotent_case :
    (revokeRefreshTokenById ⟨[⟨1, 1, false, "", ""⟩], 2⟩ 1 1).1
      = .ok (revoke ⟨1, 1, false, "", ""⟩) ∧
    (revokeRefreshTokenById
        (revokeRefreshTokenById ⟨[⟨1, 1, false, "", ""⟩], 2⟩ 1 1).2 1 1).1
      = .ok (revoke ⟨1, 1, false, "", ""⟩) :=
  ⟨(revoke_by_id_idempotent ⟨[⟨1, 1, false, "", ""⟩], 2⟩ 1 1
      ⟨1, 1, false, "", ""⟩ rfl rfl).1,
    (revoke_by_id_idempotent ⟨[⟨1, 1, false, "", ""⟩], 2⟩ 1 1
      ⟨1, 1, false, "", ""⟩ rfl rfl).2.2.1⟩

/-- C9: revoking an unknown session id fails with SessionNotFound, the
store untouched, for every requesting subject; SessionNotFound is a
different error from the MalformedCredential of the resolve path. -/
theorem revoke_by_id_unknown_session (s : Store) (tokenId userId : Nat)
    (hfind : findTokenById s tokenId = none) :
    revokeRefreshTokenById s tokenId userId = (.error .sessionNotFound, s) ∧
    AuthError.sessionNotFound ≠ AuthError.malformedCredential := by
  refine ⟨?_, by decide⟩
  simp [revokeRefreshTokenById, hfind]

/-- C9 witness: revoking on the empty store. -/
theorem revoke_by_id_unknown_session_case :
    revokeRefreshTokenById ⟨[], 5⟩ 1 1 = (.error .sessionNotFound, ⟨[], 5⟩) :=
  (revoke_by_id_unknown_session ⟨[], 5⟩ 1 1 rfl).1

/-! Lemmas for the password pattern. -/

lemma isJsWhitespace_of_isLineTerminator {c : Char}
    (h : isLineTerminator c = true) : isJsWhitespace c = true := by
  have h2 : c = '\n' ∨ c = '\r' ∨ c = '\u2028' ∨ c = '\u2029' := by
    simpa [isLineTerminator, or_assoc] using h
  rcases h2 with rfl | rfl | rfl | rfl <;> decide

lemma existsBefore_eq_any_of_no_lt {p : Char → Bool} {cs : List Char}
    (h : ∀ c ∈ cs, isLineTerminator c = false) :
    existsBeforeLineTerminator p cs = cs.any p := by
  induction cs with
  | nil => rfl
  | cons c rest ih =>
    have hc : isLineTerminator c = false := h c (List.mem_cons_self c rest)
    simp [existsBeforeLineTerminator, hc,
      ih (fun x hx => h x (List.mem_cons_of_mem _ hx))]

lemma existsBefore_ws_eq_any (cs : List Char) :
    existsBeforeLineTerminator isJsWhitespace cs = cs.any isJsWhitespace := by
  induction cs with
  | nil => rfl
  | cons c rest ih =>
    cases hc : isJsWhitespace c with
    | true => simp [existsBeforeLineTerminator, hc]
    | false =>
      have hlt : isLineTerminator c = false := by
        cases h2 : isLineTerminator c with
        | false => rfl
        | true =>
          rw [isJsWhitespace_of_isLineTerminator h2] at hc
          cases hc
      simp [existsBeforeLineTerminator, hc, hlt, ih]

lemma isEmpty_false_iff (t : String) : t.isEmpty = false ↔ t ≠ "" := by
  constructor
  · intro h ht
    rw [ht] at h
    cases h
  · intro hne
    cases h : t.isEmpty with
    | false => rfl
    | true => exact absurd ((String.isEmpty_iff t).mp h) hne

/-- C10: a ChangePasswordDto passes validation exactly when oldPassword
is non-empty, password is 6 to 20 characters with at least one lowercase
letter, one uppercase letter, one digit and one non-alphanumeric
character and no whitespace, and confirmPassword is non-empty and equal
to password. -/
theorem change_password_validation_iff (dto : ChangePasswordDto) :
    validateChangePassword dto = true ↔ changePasswordClaimCheck dto = true := by
  have hlen : dto.password.toList.length = dto.password.length := rfl
  cases hws : dto.password.toList.any isJsWhitespace with
  | true =>
    have hws2 : dto.password.data.any isJsWhitespace = true := hws
    have hv : validateChangePassword dto = false := by
      simp [validateChangePassword, matchesPasswordPattern,
        existsBefore_ws_eq_any, hws, hws2]
    have hc : changePasswordClaimCheck dto = false := by
      simp [changePasswordClaimCheck, hws, hws2]
    rw [hv, hc]
  | false =>
    have hnolt : ∀ c ∈ dto.password.toList, isLineTerminator c = false := by
      intro c hc
      cases h2 : isLineTerminator c with
      | false => rfl
      | true =>
        have hmem : dto.password.toList.any isJsWhitespace = true :=
          List.any_eq_true.mpr ⟨c, hc, isJsWhitespace_of_isLineTerminator h2⟩
        rw [hws] at hmem
        cases hmem
    have hall : dto.password.toList.all (fun c => !isLineTerminator c) = true :=
      List.all_eq_true.mpr (fun c hc => by simp [hnolt c hc])
    have himp : 6 ≤ dto.password.length → dto.password ≠ "" := by
      intro h6 he
      rw [he] at h6
      exact absurd h6 (by decide)
    have hb1 := isEmpty_false_iff dto.oldPassword
    have hb2 := isEmpty_false_iff dto.password
    have hb3 := isEmpty_false_iff dto.confirmPassword
    unfold validateChangePassword changePasswordClaimCheck
      matchesPasswordPattern isNotEmpty minLength maxLength isEqualToPassword
    simp only [existsBefore_eq_any_of_no_lt hnolt, hws, hall, hlen,
      Bool.not_false, Bool.and_true, Bool.true_and, Bool.and_eq_true,
      Bool.not_eq_true', decide_eq_true_eq, beq_iff_eq, bne_iff_ne, ne_eq]
    tauto

/-- C10 witness: a concrete conforming DTO passes validation. -/
theorem change_password_validation_iff_case :
    validateChangePassword ⟨"old", "Abc1!x", "Abc1!x"⟩ = true :=
  (change_password_validation_iff ⟨"old", "Abc1!x", "Abc1!x"⟩).mpr (by decide)

end Truthy
